import Mathlib

/-!
Shallow embedding of the `seedlit/summarize` repository (a small document
summarization service) and proofs about its specification.

Source files embedded here:
  * `src/exceptions.py`  — the `DocumentError` hierarchy,
  * `src/utils.py`       — `extract_pdf_text`, `get_openai_key`, `validate_document`,
  * `src/summarize_document.py` — `summarize_text`, `main`,
  * `src/app.py`         — `extract_text_from_pdf`, `extract_text_from_file`,
                           `generate_summary`, the `POST /summarize` handler.

Modelling conventions:
  * Python exceptions become values of the inductive type `Exc`; `raise` /
    `try` / `except` become `Except Exc` values dispatched by explicit
    matches that mirror the textual order of the `except` clauses.
  * The file system is a partial map from paths to `FileData` records that
    carry the observable attributes the code reads (size, UTF-8 decode
    outcome, PDF parse outcome, OS-level read failure).
  * The language model (LangChain chain) is an oracle `LLMWorld.invoke`
    that either returns a `result.get("output_text")` value or raises.
  * Python string truthiness (`if not text`, `if not summary`) is modelled
    by explicit emptiness checks; `str.strip()` emptiness by `pyBlank`
    over the ASCII whitespace characters Python strips.
-/

/-- Exception values that can flow through this program.  The first four
variants are the `DocumentError` hierarchy of `src/exceptions.py`; the
rest are the built-in / third-party exception classes the code interacts
with (`ValueError`, `AttributeError`, `UnicodeDecodeError`,
`pypdf.errors.PdfStreamError`, `OSError`/`IOError`, the web framework's
`HTTPException`, and a catch-all for any other `Exception`). -/
inductive Exc where
  | documentError (message : String) (status_code : Nat)
  | documentNotFoundError (message : String)
  | invalidDocumentError (message : String)
  | summarizationError (message : String)
  | valueError (message : String)
  | attributeError (message : String)
  | unicodeDecodeError (message : String)
  | pdfStreamError (message : String)
  | osError (message : String)
  | httpException (status_code : Nat) (detail : String)
  | otherExc (message : String)
deriving DecidableEq

/-- Construct the base `DocumentError(message)` of `src/exceptions.py`.
Its `status_code` parameter defaults to 500 and every direct construction
in the repository uses that default, so the default is baked in here. -/
def DocumentError (message : String) : Exc := .documentError message 500

/-- Construct `DocumentNotFoundError(message)`: calls
`super().__init__(message, status_code=404)`. -/
def DocumentNotFoundError (message : String) : Exc := .documentNotFoundError message

/-- Construct `InvalidDocumentError(message)`: calls
`super().__init__(message, status_code=400)`. -/
def InvalidDocumentError (message : String) : Exc := .invalidDocumentError message

/-- Construct `SummarizationError(message)`: calls
`super().__init__(message, status_code=500)`. -/
def SummarizationError (message : String) : Exc := .summarizationError message

/-- Construct a Python `ValueError(message)`. -/
def ValueError (message : String) : Exc := .valueError message

/-- Construct the web framework's `HTTPException(status_code, detail)`. -/
def HTTPException (status_code : Nat) (detail : String) : Exc :=
  .httpException status_code detail

/-- Whether the exception is an instance of the `DocumentError` class of
`src/exceptions.py` (the base class or any of its three subclasses). -/
def Exc.isDocumentError : Exc → Bool
  | .documentError _ _ => true
  | .documentNotFoundError _ => true
  | .invalidDocumentError _ => true
  | .summarizationError _ => true
  | _ => false

/-- Whether the exception is a Python `ValueError`. -/
def Exc.isValueError : Exc → Bool
  | .valueError _ => true
  | _ => false

/-- Whether the exception is a Python `AttributeError`. -/
def Exc.isAttributeError : Exc → Bool
  | .attributeError _ => true
  | _ => false

/-- Whether the exception is a Python `UnicodeDecodeError`. -/
def Exc.isUnicodeDecodeError : Exc → Bool
  | .unicodeDecodeError _ => true
  | _ => false

/-- The `status_code` attribute.  Only `DocumentError` instances and
`HTTPException` instances carry one in the source; for the remaining
variants (which have no such attribute in Python, and whose
`status_code` is never consulted by the embedded code) the model
returns 0. -/
def Exc.status_code : Exc → Nat
  | .documentError _ s => s
  | .documentNotFoundError _ => 404
  | .invalidDocumentError _ => 400
  | .summarizationError _ => 500
  | .httpException s _ => s
  | _ => 0

/-- Python `str(e)`.  `DocumentError.__init__` forwards the message to
`Exception.__init__`, so `str` of every `DocumentError` is its message;
the same holds for the built-in exception classes as modelled here.  The
web framework's `HTTPException.__str__` renders
`f"{status_code}: {detail}"`. -/
def Exc.str : Exc → String
  | .documentError m _ => m
  | .documentNotFoundError m => m
  | .invalidDocumentError m => m
  | .summarizationError m => m
  | .valueError m => m
  | .attributeError m => m
  | .unicodeDecodeError m => m
  | .pdfStreamError m => m
  | .osError m => m
  | .httpException s d => toString s ++ ": " ++ d
  | .otherExc m => m

/-- The `pydantic.SecretStr` wrapper returned by `get_openai_key`. -/
structure SecretStr where
  secret : String
deriving DecidableEq

/-- Embeds `utils.get_openai_key` (src/utils.py lines 57-75).  `env` is
the value of the `OPENAI_API_KEY` environment variable (`none` when
unset).  Python: `api_key = os.getenv("OPENAI_API_KEY"); if not api_key:
raise ValueError("OPENAI_API_KEY not set in environment")`.  The
function's own `except Exception: ...; raise` clause re-raises the same
exception unchanged, so it has no effect on the value semantics. -/
def get_openai_key (env : Option String) : Except Exc SecretStr :=
  match env with
  | none => .error (ValueError "OPENAI_API_KEY not set in environment")
  | some api_key =>
    if api_key == "" then
      .error (ValueError "OPENAI_API_KEY not set in environment")
    else
      .ok ⟨api_key⟩

/-- ASCII model of Python `str.lower()` (adequate for file extensions,
the only strings the code lowers). -/
def pyLower (s : String) : String := String.mk (s.data.map Char.toLower)

/-- ASCII model of the character set Python `str.strip()` removes. -/
def pyIsSpace (c : Char) : Bool :=
  c == ' ' || c == '\t' || c == '\n' || c == '\r' || c == '\x0b' || c == '\x0c'

/-- Whether `not s.strip()` holds in Python: the string is empty or
consists only of whitespace. -/
def pyBlank (s : String) : Bool := s.data.all pyIsSpace

/-- Index of the last occurrence of `c` in the list, or `-1` when absent
(Python `str.rfind`). -/
def pyRFindAux : List Char → Char → Int → Int → Int
  | [], _, _, best => best
  | x :: rest, c, i, best => pyRFindAux rest c (i + 1) (if x == c then i else best)

/-- Python `str.rfind` over a character list. -/
def pyRFind (s : List Char) (c : Char) : Int := pyRFindAux s c 0 (-1)

/-- Embeds `os.path.splitext` for POSIX paths (separator `/`, extension
separator `.`): the extension starts at the last dot, provided that dot
lies inside the basename and the basename has at least one non-dot
character before it (leading dots of the basename never start an
extension, so `.txt` splits to `(".txt", "")`). -/
def splitext (p : String) : String × String :=
  let cs := p.data
  let sepIndex := pyRFind cs '/'
  let dotIndex := pyRFind cs '.'
  if sepIndex < dotIndex then
    let nameStart := (sepIndex + 1).toNat
    let stem := (cs.drop nameStart).take (dotIndex.toNat - nameStart)
    if stem.any (fun ch => ch != '.') then
      (String.mk (cs.take dotIndex.toNat), String.mk (cs.drop dotIndex.toNat))
    else
      (p, "")
  else
    (p, "")

/-- Outcome of handing a byte stream to `pypdf.PdfReader` and iterating
its pages: a successful parse yields each page's `extract_text()` result
(`none` when the page yields no text), or the parse/iteration raises
`PdfStreamError`, or it raises some other exception. -/
inductive PdfParseResult where
  | ok (pages : List (Option String))
  | streamError (detail : String)
  | otherError (detail : String)
deriving DecidableEq

/-- Observable attributes of one file on disk, as read by the CLI path:
its byte size, whether opening/reading it fails at the OS level (the
`IOError`/`OSError` detail), the result of decoding its bytes as UTF-8
(`none` means `UnicodeDecodeError`, whose `str(e)` is `decodeErr`), and
the result of parsing its bytes as a PDF. -/
structure FileData where
  size : Nat
  ioError : Option String
  textUtf8 : Option String
  decodeErr : String
  pdf : PdfParseResult

/-- A file system: a partial map from paths to files. -/
def FileSystem := String → Option FileData

/-- Python `repr` of a list of strings, as interpolated by the f-string
in `validate_document` (`\x27` is the single-quote character). -/
def pyStrListRepr (l : List String) : String :=
  "[" ++ String.intercalate ", " (l.map (fun s => "\x27" ++ s ++ "\x27")) ++ "]"

/-- Embeds `utils.validate_document` (src/utils.py lines 78-135): check
existence, then the lower-cased extension against the allow-list, then
non-emptiness, then the size ceiling, and return the lower-cased
extension. -/
def validate_document (fs : FileSystem) (doc_path : String)
    (allowed_types : List String) (max_size_bytes : Nat) : Except Exc String :=
  match fs doc_path with
  | none => .error (DocumentNotFoundError ("File not found: " ++ doc_path))
  | some file =>
    let ext := pyLower (splitext doc_path).2
    if ext ∉ allowed_types then
      .error (InvalidDocumentError
        ("Unsupported file type: " ++ ext ++ ". Allowed types: " ++ pyStrListRepr allowed_types))
    else if file.size == 0 then
      .error (InvalidDocumentError ("File is empty: " ++ doc_path))
    else if file.size > max_size_bytes then
      .error (InvalidDocumentError
        ("File too large: " ++ toString file.size ++ " bytes. Max allowed is "
          ++ toString max_size_bytes ++ " bytes."))
    else
      .ok ext

/-- Embeds `utils.extract_pdf_text` (src/utils.py lines 26-54): missing
file raises `DocumentNotFoundError`; an OS-level open failure is caught
by the outer `except (IOError, OSError)` clause and re-raised as
`DocumentError("Error accessing file: ...")`; a `PdfStreamError` from the
parser becomes `InvalidDocumentError("Invalid or corrupted PDF file: ...")`;
any other parse failure becomes `DocumentError("Error reading PDF file: ...")`;
on success the per-page texts are accumulated with
`text += page.extract_text() or ""`. -/
def extract_pdf_text (fs : FileSystem) (pdf_path : String) : Except Exc String :=
  match fs pdf_path with
  | none => .error (DocumentNotFoundError ("File not found: " ++ pdf_path))
  | some file =>
    match file.ioError with
    | some detail => .error (DocumentError ("Error accessing file: " ++ detail))
    | none =>
      match file.pdf with
      | .ok pages => .ok (pages.foldl (fun text page => text ++ page.getD "") "")
      | .streamError detail =>
        .error (InvalidDocumentError ("Invalid or corrupted PDF file: " ++ detail))
      | .otherError detail =>
        .error (DocumentError ("Error reading PDF file: " ++ detail))

/-- Outcome of `chain.invoke({"input_documents": docs})` in
`summarize_text`: either a result dictionary whose `output_text` entry is
the given `Option String` (`none` when absent), or a raised exception. -/
inductive ChainInvokeOutcome where
  | returns (output_text : Option String)
  | raises (e : Exc)

/-- The environment and the language-model oracle `summarize_text` runs
against: the value of `OPENAI_API_KEY` and the behaviour of the
summarization chain's `invoke` on the input text. -/
structure LLMWorld where
  env : Option String
  invoke : String → ChainInvokeOutcome

/-- Python `if not text or not text.strip()`: true when `text` is absent
(`None`), empty, or entirely whitespace. -/
def not_text_or_blank : Option String → Bool
  | none => true
  | some s => s == "" || pyBlank s

/-- Python truthiness of `result.get("output_text")`: false for an absent
entry and for the empty string. -/
def py_truthy_opt : Option String → Bool
  | none => false
  | some s => !(s == "")

/-- Modelled from the spec: `src/constants.py` is imported by
`src/utils.py` and `src/summarize_document.py` but is not among the
provided source files.  The spec fixes `ALLOWED_TYPES` as the ordered
set `[".pdf", ".txt"]`. -/
def ALLOWED_TYPES : List String := [".pdf", ".txt"]

/-- Modelled from the spec: `src/constants.py` is not among the provided
source files; the spec fixes `MAX_SIZE_BYTES` at 10 MiB
(10 × 1024 × 1024 = 10,485,760 bytes). -/
def MAX_SIZE_BYTES : Nat := 10 * 1024 * 1024

/-- Embeds `summarize_document.summarize_text` (src/summarize_document.py
lines 22-73).  The leading emptiness check runs before the `try` block,
so its `InvalidDocumentError` propagates raw.  Inside the `try`:
`get_openai_key` runs before the inner `try`, so its exceptions reach
only the outer clauses; `chain.invoke` exceptions of class `ValueError`
or `AttributeError` are wrapped by the inner clause into
`SummarizationError("Error during text summarization: ...")` (itself
raised inside the outer `try`); a falsy `output_text` raises
`SummarizationError("No summary returned from model")`.  The outer
clauses re-raise any `DocumentError` unchanged and wrap every other
exception into `SummarizationError("Unexpected error during
summarization: ...")`.  The second, textually later catch-all clause of
the source is dead code and contributes nothing here; it is analysed
separately via `firstHandler`. -/
def summarize_text (world : LLMWorld) (text : Option String) : Except Exc String :=
  if not_text_or_blank text then
    .error (InvalidDocumentError "Empty text cannot be summarized")
  else
    let body : Except Exc String :=
      match get_openai_key world.env with
      | .error e => .error e
      | .ok _ =>
        let invoked : Except Exc (Option String) :=
          match world.invoke (text.getD "") with
          | .raises e =>
            if e.isValueError || e.isAttributeError then
              .error (SummarizationError ("Error during text summarization: " ++ e.str))
            else
              .error e
          | .returns output_text => .ok output_text
        match invoked with
        | .error e => .error e
        | .ok output_text =>
          if py_truthy_opt output_text then
            .ok (output_text.getD "")
          else
            .error (SummarizationError "No summary returned from model")
    match body with
    | .ok summary => .ok summary
    | .error e =>
      if e.isDocumentError then
        .error e
      else
        .error (SummarizationError ("Unexpected error during summarization: " ++ e.str))

/-- The `except` clause classes a Python `try` statement can carry in
this program: `except DocumentError` or the catch-all `except Exception`. -/
inductive ExceptClause where
  | documentErrorClause
  | exceptionClause
deriving DecidableEq

/-- Whether an `except` clause of the given class catches the exception:
`except DocumentError` catches exactly the `DocumentError` hierarchy,
`except Exception` catches every exception modelled here (every class in
`Exc` subclasses `Exception`). -/
def ExceptClause.catches : ExceptClause → Exc → Bool
  | .documentErrorClause, e => e.isDocumentError
  | .exceptionClause, _ => true

/-- Zero-based index of the first `except` clause that catches the
exception (Python dispatches to the textually first matching clause),
or `none` when no clause matches. -/
def firstHandlerAux : List ExceptClause → Exc → Nat → Option Nat
  | [], _, _ => none
  | c :: rest, e, i => if c.catches e then some i else firstHandlerAux rest e (i + 1)

/-- Index of the `except` clause that handles the exception. -/
def firstHandler (clauses : List ExceptClause) (e : Exc) : Option Nat :=
  firstHandlerAux clauses e 0

/-- The `except` clauses of the outer `try` of `summarize_text`, in
textual order (src/summarize_document.py lines 63-73):
`except DocumentError`, `except Exception`, `except Exception`. -/
def summarize_text_handlers : List ExceptClause :=
  [.documentErrorClause, .exceptionClause, .exceptionClause]

/-- Embeds the inlined non-PDF read branch of `summarize_document.main`
(src/summarize_document.py lines 100-116): open the file as UTF-8 text,
read it, and raise `InvalidDocumentError("File is empty or unreadable:
{path}")` when the content is blank — all inside a `try` whose clauses
translate a `UnicodeDecodeError` into `InvalidDocumentError("File is not
a valid text file: ...")` and any other exception (including the
`InvalidDocumentError` just raised for blank content) into
`DocumentError("Error reading file: ...")`.  A missing file makes
`open` raise `FileNotFoundError` (an `OSError`); `main` only reaches
this branch after validation, so that case is unreachable from `main`. -/
def main_read_text (fs : FileSystem) (doc_path : String) : Except Exc String :=
  let body : Except Exc String :=
    match fs doc_path with
    | none => .error (.osError ("[Errno 2] No such file or directory: " ++ doc_path))
    | some file =>
      match file.ioError with
      | some detail => .error (.osError detail)
      | none =>
        match file.textUtf8 with
        | none => .error (.unicodeDecodeError file.decodeErr)
        | some text =>
          if pyBlank text then
            .error (InvalidDocumentError ("File is empty or unreadable: " ++ doc_path))
          else
            .ok text
  match body with
  | .ok text => .ok text
  | .error e =>
    if e.isUnicodeDecodeError then
      .error (InvalidDocumentError ("File is not a valid text file: " ++ e.str))
    else
      .error (DocumentError ("Error reading file: " ++ e.str))

/-- Embeds `summarize_document.main` (src/summarize_document.py lines
76-131): usage check, `validate_document` with the default allow-list
and size ceiling (outside the `try`, so its errors propagate raw), text
extraction by extension, summarization, and the outer clauses that
re-raise `DocumentError` unchanged and wrap anything else into
`DocumentError("Unhandled error in main: ...")`.  Lean reserves the
unqualified name `main`, so the definition lives in a namespace named
after its module. -/
def summarize_document.main (world : LLMWorld) (fs : FileSystem) (argv : List String) :
    Except Exc String :=
  if argv.length < 2 then
    .error (InvalidDocumentError "Usage: python summarize_document.py <document_path>")
  else
    let doc_path := (argv[1]?).getD ""
    match validate_document fs doc_path ALLOWED_TYPES MAX_SIZE_BYTES with
    | .error e => .error e
    | .ok ext =>
      let extracted : Except Exc String :=
        if ext == ".pdf" then extract_pdf_text fs doc_path
        else main_read_text fs doc_path
      let body : Except Exc String :=
        match extracted with
        | .error e => .error e
        | .ok text => summarize_text world (some text)
      match body with
      | .ok summary => .ok summary
      | .error e =>
        if e.isDocumentError then
          .error e
        else
          .error (DocumentError ("Unhandled error in main: " ++ e.str))

/-- Observable attributes of an uploaded file's in-memory bytes, as read
by the HTTP path: the UTF-8 decode outcome (`none` means
`UnicodeDecodeError`, whose `str(e)` is `decodeErr`) and the
parse-as-PDF outcome. -/
structure FileBytes where
  textUtf8 : Option String
  decodeErr : String
  pdf : PdfParseResult

/-- A multipart file upload as the handler sees it: the client-supplied
filename (`None` possible) and the uploaded bytes. -/
structure Upload where
  filename : Option String
  contents : FileBytes

/-- Embeds `app.extract_text_from_pdf` (src/app.py lines 12-15):
`"".join(page.extract_text() or "" for page in pdf_reader.pages)`.
An exception from the parser propagates to the caller. -/
def extract_text_from_pdf (pdf_contents : PdfParseResult) : Except Exc String :=
  match pdf_contents with
  | .ok pages => .ok (String.join (pages.map (fun page => page.getD "")))
  | .streamError detail => .error (.pdfStreamError detail)
  | .otherError detail => .error (.otherExc detail)

/-- Python `s.endswith(suffix)`. -/
def pyEndsWith (s suffix : String) : Bool :=
  suffix.data.isSuffixOf s.data

/-- Embeds `app.extract_text_from_file` (src/app.py lines 18-41): a
truthy filename ending (case-insensitively) in `.pdf` routes to
`extract_text_from_pdf`; otherwise the bytes are decoded as UTF-8, a
`UnicodeDecodeError` being replaced by `HTTPException(400, "Unsupported
file format. Please upload a PDF or text file.")`. -/
def extract_text_from_file (contents : FileBytes) (filename : String) : Except Exc String :=
  if !(filename == "") && pyEndsWith (pyLower filename) ".pdf" then
    extract_text_from_pdf contents.pdf
  else
    match contents.textUtf8 with
    | some text => .ok text
    | none =>
      .error (HTTPException 400 "Unsupported file format. Please upload a PDF or text file.")

/-- Embeds `app.generate_summary` (src/app.py lines 44-64): call
`summarize_text`, replace a falsy summary by `HTTPException(500, "Failed
to generate summary")` (raised inside the `try`, whose only clause is
`except ValueError`, so it propagates), return `{"summary": summary}`
otherwise, and translate a `ValueError` into `HTTPException(500,
str(e))`. -/
def generate_summary (world : LLMWorld) (text : String) : Except Exc String :=
  let body : Except Exc String :=
    match summarize_text world (some text) with
    | .error e => .error e
    | .ok summary =>
      if summary == "" then .error (HTTPException 500 "Failed to generate summary")
      else .ok summary
  match body with
  | .ok summary => .ok summary
  | .error e =>
    if e.isValueError then .error (HTTPException 500 e.str)
    else .error e

/-- The HTTP response the framework produces for the handler: a 200 with
the JSON body `{"summary": ...}`, or (for a raised `HTTPException`) the
exception's status code with the JSON body `{"detail": ...}`. -/
inductive HttpResult where
  | success (summary : String)
  | failure (status_code : Nat) (detail : String)
deriving DecidableEq

/-- The `try` block of the `POST /summarize` handler (src/app.py lines
80-88): read the bytes, raise `HTTPException(400, "Uploaded file must
have a filename.")` when the filename is `None`, extract the text, and
generate the summary. -/
def summarize_body (world : LLMWorld) (file : Upload) : Except Exc String :=
  match file.filename with
  | none => .error (HTTPException 400 "Uploaded file must have a filename.")
  | some filename =>
    match extract_text_from_file file.contents filename with
    | .error e => .error e
    | .ok text => generate_summary world text

/-- Embeds the `POST /summarize` handler `app.summarize` (src/app.py
lines 66-97).  The `except` clauses run in textual order: `except
DocumentError as e` re-raises it as `HTTPException(e.status_code,
str(e))`, and `except Exception as e` — which also catches any
`HTTPException` raised inside the `try` block, since `HTTPException`
subclasses `Exception` — re-raises `HTTPException(500, "An unexpected
error occurred: " + str(e))`.  The `HTTPException` raised from an
`except` clause escapes to the framework and becomes the response. -/
def summarize (world : LLMWorld) (file : Upload) : HttpResult :=
  match summarize_body world file with
  | .ok summary => .success summary
  | .error e =>
    if e.isDocumentError then
      .failure e.status_code e.str
    else
      .failure 500 ("An unexpected error occurred: " ++ e.str)

/-- Concrete world with `OPENAI_API_KEY` unset; the chain oracle is
irrelevant on the paths it is used for. -/
def worldNoKey : LLMWorld := { env := none, invoke := fun _ => .returns none }

/-- Concrete world with `OPENAI_API_KEY` set to the empty string and a
chain that would happily return a summary. -/
def worldEmptyKey : LLMWorld := { env := some "", invoke := fun _ => .returns (some "summary") }

/-- Concrete world with a working key and a deterministic chain. -/
def worldStub : LLMWorld := { env := some "sk-testkey", invoke := fun _ => .returns (some "summary") }

/-- Concrete upload whose filename is absent. -/
def uploadNoFilename : Upload :=
  { filename := none, contents := { textUtf8 := some "hello", decodeErr := "", pdf := .ok [] } }

/-- Concrete upload named `file.bin` whose bytes are not valid UTF-8. -/
def uploadBinary : Upload :=
  { filename := some "file.bin",
    contents := { textUtf8 := none, decodeErr := "invalid start byte", pdf := .streamError "junk" } }

/-- Concrete upload named `notes.txt` whose bytes decode to whitespace. -/
def uploadBlankText : Upload :=
  { filename := some "notes.txt",
    contents := { textUtf8 := some "   ", decodeErr := "", pdf := .ok [] } }

/-- Concrete text file whose content is three spaces. -/
def blankDocFile : FileData :=
  { size := 3, ioError := none, textUtf8 := some "   ", decodeErr := "", pdf := .ok [] }

/-- Concrete file system holding only `doc.txt`, a whitespace-only file. -/
def fsBlankDoc : FileSystem := fun p => if p == "doc.txt" then some blankDocFile else none

/-- Concrete readable PDF file with three pages, the middle one yielding
no text. -/
def samplePdfFile : FileData :=
  { size := 4, ioError := none, textUtf8 := none, decodeErr := "bad",
    pdf := .ok [some "Page one. ", none, some "Page two."] }

/-- Concrete file system holding only `paper.pdf`. -/
def fsSamplePdf : FileSystem := fun p => if p == "paper.pdf" then some samplePdfFile else none

/-- Concrete readable text file of five bytes. -/
def sampleTxtFile : FileData :=
  { size := 5, ioError := none, textUtf8 := some "hello", decodeErr := "", pdf := .ok [] }

/-- Concrete file system holding only `a.TXT`. -/
def fsSampleTxt : FileSystem := fun p => if p == "a.TXT" then some sampleTxtFile else none

/-- Unfolding of `String.join` on a cons cell. -/
theorem string_join_cons (x : String) (l : List String) :
    String.join (x :: l) = x ++ String.join l := by
  obtain ⟨xs⟩ := x
  rw [String.join_eq, String.join_eq]
  simp only [List.map_cons, List.flatten_cons]
  rfl

/-- The page-concatenation loop of `utils.extract_pdf_text` computes the
same string as `"".join` over the per-page texts, for any accumulator. -/
theorem foldl_append_getD (pages : List (Option String)) (acc : String) :
    pages.foldl (fun text page => text ++ page.getD "") acc
      = acc ++ String.join (pages.map (fun page => page.getD "")) := by
  induction pages generalizing acc with
  | nil =>
    simp only [List.map_nil, List.foldl_nil]
    rw [show String.join ([] : List String) = "" from rfl, String.append_empty]
  | cons p rest ih =>
    rw [List.map_cons, List.foldl_cons, ih, string_join_cons, ← String.append_assoc]

/-- C1: the claim says a `POST /summarize` upload with no filename is
answered with HTTP 400 and detail "Uploaded file must have a filename.".
The handler does raise `HTTPException(400, ...)` with exactly that
detail, but it raises it inside its own `try` block, and the handler's
final `except Exception` clause catches `HTTPException` (a subclass of
`Exception`) and re-raises `HTTPException(500, "An unexpected error
occurred: " + str(e))`.  The actual response is therefore a 500 whose
detail wraps the stringified 400, never the claimed 400 response. -/
theorem http_missing_filename_actual_response :
    summarize worldNoKey uploadNoFilename
      = .failure 500 "An unexpected error occurred: 400: Uploaded file must have a filename."
    ∧ summarize worldNoKey uploadNoFilename
      ≠ .failure 400 "Uploaded file must have a filename." := by
  constructor
  · rfl
  · intro h
    rw [show summarize worldNoKey uploadNoFilename
      = .failure 500 "An unexpected error occurred: 400: Uploaded file must have a filename."
      from rfl] at h
    injection h with h1 _
    exact absurd h1 (by decide)

/-- C2: the claim says a non-PDF upload with undecodable bytes is
answered with HTTP 400 and detail "Unsupported file format. Please
upload a PDF or text file.".  `extract_text_from_file` does raise
`HTTPException(400, ...)` with that detail, but the raise happens inside
the handler's `try` block and the handler's `except Exception` catch-all
intercepts it, so the actual response is a 500 wrapping the stringified
400. -/
theorem http_undecodable_upload_actual_response :
    summarize worldNoKey uploadBinary
      = .failure 500
          "An unexpected error occurred: 400: Unsupported file format. Please upload a PDF or text file."
    ∧ summarize worldNoKey uploadBinary
      ≠ .failure 400 "Unsupported file format. Please upload a PDF or text file." := by
  constructor
  · rfl
  · intro h
    rw [show summarize worldNoKey uploadBinary
      = .failure 500
          "An unexpected error occurred: 400: Unsupported file format. Please upload a PDF or text file."
      from rfl] at h
    injection h with h1 _
    exact absurd h1 (by decide)

/-- C3: the claim says a validated non-PDF file whose decoded content is
blank fails with `InvalidDocumentError("File is empty or unreadable:
{path}")` (status 400), not a re-wrapped generic `DocumentError`.  In
the source, that `InvalidDocumentError` is raised inside the read
branch's own `try` block, whose final `except Exception` clause catches
it (it subclasses `Exception`) and re-raises the generic
`DocumentError("Error reading file: " + str(e))` with status 500; the
outer `except DocumentError: raise` then propagates the re-wrapped
error.  Shown here on the concrete file `doc.txt` containing three
spaces. -/
theorem cli_blank_text_file_actual_error :
    summarize_document.main worldNoKey fsBlankDoc ["summarize_document.py", "doc.txt"]
      = .error (DocumentError "Error reading file: File is empty or unreadable: doc.txt")
    ∧ (DocumentError "Error reading file: File is empty or unreadable: doc.txt").status_code = 500
    ∧ summarize_document.main worldNoKey fsBlankDoc ["summarize_document.py", "doc.txt"]
      ≠ .error (InvalidDocumentError "File is empty or unreadable: doc.txt") := by
  refine ⟨rfl, rfl, ?_⟩
  intro h
  rw [show summarize_document.main worldNoKey fsBlankDoc ["summarize_document.py", "doc.txt"]
    = .error (DocumentError "Error reading file: File is empty or unreadable: doc.txt")
    from rfl] at h
  injection h with h1
  exact absurd h1 (by decide)

/-- C4: the claim says that with `OPENAI_API_KEY` absent or empty,
`summarize_text` fails with the credential error carrying the message
"OPENAI_API_KEY not set in environment", propagated unchanged rather
than translated into a `SummarizationError`.  In the source,
`get_openai_key` raises a plain `ValueError` — not a `DocumentError` —
so `summarize_text`'s `except DocumentError: raise` clause does not
apply and its catch-all wraps the error into
`SummarizationError("Unexpected error during summarization:
OPENAI_API_KEY not set in environment")`.  Shown for both the unset and
the empty-string environment. -/
theorem missing_api_key_actual_error :
    summarize_text worldNoKey (some "Some long text.")
      = .error (SummarizationError
          "Unexpected error during summarization: OPENAI_API_KEY not set in environment")
    ∧ summarize_text worldEmptyKey (some "Some long text.")
      = .error (SummarizationError
          "Unexpected error during summarization: OPENAI_API_KEY not set in environment")
    ∧ summarize_text worldNoKey (some "Some long text.")
      ≠ .error (ValueError "OPENAI_API_KEY not set in environment") := by
  refine ⟨rfl, rfl, ?_⟩
  intro h
  rw [show summarize_text worldNoKey (some "Some long text.")
    = .error (SummarizationError
        "Unexpected error during summarization: OPENAI_API_KEY not set in environment")
    from rfl] at h
  injection h with h1
  exact absurd h1 (by decide)

/-- C5: `validate_document` checks, in order: existence (else
`DocumentNotFoundError("File not found: {path}")`), lower-cased
extension membership in the allow-list (else `InvalidDocumentError`
naming the unsupported type and the allowed set), zero size (else
`InvalidDocumentError("File is empty: {path}")`), size above the ceiling
(else `InvalidDocumentError` reporting actual and maximum sizes), and
otherwise returns the lower-cased extension. -/
theorem validate_document_checks_in_order (fs : FileSystem) (doc_path : String)
    (allowed_types : List String) (max_size_bytes : Nat) :
    (fs doc_path = none →
      validate_document fs doc_path allowed_types max_size_bytes
        = .error (DocumentNotFoundError ("File not found: " ++ doc_path)))
  ∧ (∀ file : FileData, fs doc_path = some file →
      (pyLower (splitext doc_path).2 ∉ allowed_types →
        validate_document fs doc_path allowed_types max_size_bytes
          = .error (InvalidDocumentError
              ("Unsupported file type: " ++ pyLower (splitext doc_path).2
                ++ ". Allowed types: " ++ pyStrListRepr allowed_types)))
    ∧ (pyLower (splitext doc_path).2 ∈ allowed_types → file.size = 0 →
        validate_document fs doc_path allowed_types max_size_bytes
          = .error (InvalidDocumentError ("File is empty: " ++ doc_path)))
    ∧ (pyLower (splitext doc_path).2 ∈ allowed_types → file.size ≠ 0 →
        file.size > max_size_bytes →
        validate_document fs doc_path allowed_types max_size_bytes
          = .error (InvalidDocumentError
              ("File too large: " ++ toString file.size ++ " bytes. Max allowed is "
                ++ toString max_size_bytes ++ " bytes.")))
    ∧ (pyLower (splitext doc_path).2 ∈ allowed_types → file.size ≠ 0 →
        file.size ≤ max_size_bytes →
        validate_document fs doc_path allowed_types max_size_bytes
          = .ok (pyLower (splitext doc_path).2))) := by
  refine ⟨fun h => by simp [validate_document, h], fun file hf => ⟨?_, ?_, ?_, ?_⟩⟩
  · intro hmem
    simp [validate_document, hf, hmem]
  · intro hmem hsz
    simp [validate_document, hf, hmem, hsz]
  · intro hmem hsz hgt
    simp [validate_document, hf, hmem, beq_iff_eq, hsz, hgt]
  · intro hmem hsz hle
    simp [validate_document, hf, hmem, beq_iff_eq, hsz, Nat.not_lt.mpr hle]

/-- Witness for C5: the success branch at a concrete input — `a.TXT`, a
five-byte file, allow-list `[".pdf", ".txt"]`, ceiling 100 — returns the
lower-cased extension `.txt`. -/
theorem validate_document_checks_in_order_witness :
    validate_document fsSampleTxt "a.TXT" [".pdf", ".txt"] 100 = .ok ".txt" :=
  ((validate_document_checks_in_order fsSampleTxt "a.TXT" [".pdf", ".txt"] 100).2
    sampleTxtFile rfl).2.2.2 (by decide) (by decide) (by decide)

/-- C6: `summarize_text` on an absent, empty, or all-whitespace input
fails with `InvalidDocumentError("Empty text cannot be summarized")`.
The check runs before the `try` block, so the error propagates raw, and
the result holds for every world — in particular for every behaviour of
the chain oracle and every environment, which is the model's statement
that neither the credential lookup nor the model invocation happens. -/
theorem summarize_text_rejects_empty_input (world : LLMWorld) (text : Option String)
    (h : not_text_or_blank text = true) :
    summarize_text world text
      = .error (InvalidDocumentError "Empty text cannot be summarized") := by
  simp [summarize_text, h]

/-- Witness for C6: three spaces, in a world whose chain would return a
summary and whose key is set. -/
theorem summarize_text_rejects_empty_input_witness :
    not_text_or_blank (some "   ") = true
    ∧ summarize_text worldStub (some "   ")
        = .error (InvalidDocumentError "Empty text cannot be summarized") :=
  ⟨rfl, summarize_text_rejects_empty_input worldStub (some "   ") rfl⟩

/-- C7: a `DocumentError` (of any specialization) raised in the
`POST /summarize` handler body is answered with that error's own
`status_code` and its message as detail (the `except DocumentError`
clause precedes the catch-all, and the `HTTPException` it raises escapes
to the framework untouched); in particular, blank text reaching the
summarizer yields 400 with detail "Empty text cannot be summarized". -/
theorem handler_maps_document_errors (world : LLMWorld) (file : Upload) :
    (∀ e : Exc, summarize_body world file = .error e → e.isDocumentError = true →
      summarize world file = .failure e.status_code e.str)
  ∧ (∀ fn text, file.filename = some fn →
      extract_text_from_file file.contents fn = .ok text →
      not_text_or_blank (some text) = true →
      summarize world file = .failure 400 "Empty text cannot be summarized") := by
  constructor
  · intro e he hd
    simp [summarize, he, hd]
  · intro fn text hfn hex hblank
    have hst : summarize_text world (some text)
        = .error (InvalidDocumentError "Empty text cannot be summarized") := by
      simp [summarize_text, hblank]
    have hgs : generate_summary world text
        = .error (InvalidDocumentError "Empty text cannot be summarized") := by
      simp [generate_summary, hst, InvalidDocumentError, Exc.isValueError]
    have hb : summarize_body world file
        = .error (InvalidDocumentError "Empty text cannot be summarized") := by
      simp [summarize_body, hfn, hex, hgs]
    simp [summarize, hb, InvalidDocumentError, Exc.isDocumentError, Exc.status_code, Exc.str]

/-- Witness for C7: a `notes.txt` upload decoding to three spaces is
answered 400 "Empty text cannot be summarized". -/
theorem handler_maps_document_errors_witness :
    summarize worldStub uploadBlankText = .failure 400 "Empty text cannot be summarized" :=
  (handler_maps_document_errors worldStub uploadBlankText).2 "notes.txt" "   " rfl rfl rfl

/-- C8: the specializations fix the status codes — not-found 404,
invalid 400, summarization-failure 500 — and the base `DocumentError`
constructed directly (all in-repo constructions omit the status
argument) defaults to 500, whatever the message.  Errors are immutable
values of `Exc` in this embedding: no operation anywhere in the model
rebuilds an error with a different `status_code`, so a constructed
error's code never changes. -/
theorem document_error_status_codes (message : String) :
    (DocumentNotFoundError message).status_code = 404
  ∧ (InvalidDocumentError message).status_code = 400
  ∧ (SummarizationError message).status_code = 500
  ∧ (DocumentError message).status_code = 500 :=
  ⟨rfl, rfl, rfl, rfl⟩

/-- C9: in the outer `try` of `summarize_text`, whose `except` clauses
are, in order, `except DocumentError`, `except Exception`,
`except Exception`, the third clause (index 2, the second catch-all) is
unreachable: every exception is dispatched to clause 0 or clause 1,
because `except Exception` at index 1 already catches every exception
class. -/
theorem second_catch_all_unreachable (e : Exc) :
    firstHandler summarize_text_handlers e ≠ some 2
  ∧ (firstHandler summarize_text_handlers e = some 0
      ∨ firstHandler summarize_text_handlers e = some 1) := by
  cases he : e.isDocumentError with
  | false =>
    have h1 : firstHandler summarize_text_handlers e = some 1 := by
      simp [firstHandler, firstHandlerAux, summarize_text_handlers, ExceptClause.catches, he]
    rw [h1]
    exact ⟨by decide, Or.inr rfl⟩
  | true =>
    have h0 : firstHandler summarize_text_handlers e = some 0 := by
      simp [firstHandler, firstHandlerAux, summarize_text_handlers, ExceptClause.catches, he]
    rw [h0]
    exact ⟨by decide, Or.inl rfl⟩

/-- C10: on an existing, readable file whose bytes parse as a PDF with
the given per-page texts, the CLI utility `extract_pdf_text` (a `+=`
loop over pages) and the HTTP service's in-memory `extract_text_from_pdf`
(`"".join` over pages) return the identical string: the concatenation of
the per-page texts in page order with no separator, a page yielding no
text contributing the empty string. -/
theorem pdf_extractors_agree (fs : FileSystem) (pdf_path : String) (file : FileData)
    (pages : List (Option String))
    (hfs : fs pdf_path = some file) (hio : file.ioError = none)
    (hpdf : file.pdf = PdfParseResult.ok pages) :
    extract_pdf_text fs pdf_path
        = .ok (String.join (pages.map (fun page => page.getD "")))
    ∧ extract_text_from_pdf file.pdf = extract_pdf_text fs pdf_path := by
  have hfold : pages.foldl (fun text page => text ++ page.getD "") ""
      = String.join (pages.map (fun page => page.getD "")) := by
    rw [foldl_append_getD, String.empty_append]
  constructor
  · simp [extract_pdf_text, hfs, hio, hpdf, hfold]
  · simp [extract_pdf_text, extract_text_from_pdf, hfs, hio, hpdf, hfold]

/-- Witness for C10: a three-page PDF (middle page yields no text) at
`paper.pdf`. -/
theorem pdf_extractors_agree_witness :
    extract_pdf_text fsSamplePdf "paper.pdf"
        = .ok (String.join (([some "Page one. ", none, some "Page two."]).map
            (fun page => page.getD "")))
    ∧ extract_text_from_pdf samplePdfFile.pdf = extract_pdf_text fsSamplePdf "paper.pdf" :=
  pdf_extractors_agree fsSamplePdf "paper.pdf" samplePdfFile
    [some "Page one. ", none, some "Page two."] rfl rfl rfl
